import Mathlib

/-!
Shallow embedding of the X11 glue code of ueberzug (src/ueberzug/X):
the overlay window lifecycle and event dispatch (window.c) and the
display/session management and auxiliary queries (display.c).

Server-side state (shape masks, connections) is passed explicitly;
calls issued to the X server are recorded as an explicit list of
`XCall` effects.  C unsigned 32-bit arithmetic is modelled on `Nat`
with explicit reduction modulo 2^32; the CPython argument-parsing
formats used by the code ("hhHH") are modelled with their documented
conversion semantics (overflow checking for h, masking for H).
-/

namespace Ueberzug

/-- Width of a C unsigned int, as used for window dimensions. -/
def U32 : Nat := 2 ^ 32

/-- Conversion of a C int value to unsigned int (cast in
`(unsigned int)event.xconfigure.width`). -/
def u32 (n : Int) : Nat := (n % (U32 : Int)).toNat

/-- C unsigned 32-bit subtraction `a - b`, wrapping modulo 2^32
(the arithmetic performed on `delta_width` and `delta_height` in
`Window_process_event`). -/
def usub32 (a b : Nat) : Nat := (a % U32 + (U32 - b % U32)) % U32

/-- An XRectangle as filled in by `Window_set_visibility_mask`:
`x`, `y` are C short values, `width`, `height` C unsigned short values. -/
structure XRect where
  x : Int
  y : Int
  width : Nat
  height : Nat
deriving DecidableEq

/-- The two shape kinds used by window.c (`ShapeInput`, `ShapeBounding`). -/
inductive ShapeKind
  | shapeBounding
  | shapeInput
deriving DecidableEq

/-- Server-side shape state of one window: the bounding (visibility)
rectangle list and the input rectangle list.  `XShapeCombineRectangles`
with `ShapeSet` replaces the addressed list wholesale. -/
structure ShapeState where
  bounding : List XRect
  input : List XRect
deriving DecidableEq

/-- `set_xshape_mask` (window.c): one `XShapeCombineRectangles` call with
operation `ShapeSet` on the given shape kind. -/
def set_xshape_mask (s : ShapeState) (kind : ShapeKind) (area : List XRect) : ShapeState :=
  match kind with
  | .shapeInput => { s with input := area }
  | .shapeBounding => { s with bounding := area }

/-- `set_input_mask` (window.c). -/
def set_input_mask (s : ShapeState) (area : List XRect) : ShapeState :=
  set_xshape_mask s .shapeInput area

/-- `set_visibility_mask` (window.c): note it addresses only `ShapeBounding`. -/
def set_visibility_mask (s : ShapeState) (area : List XRect) : ShapeState :=
  set_xshape_mask s .shapeBounding area

/-- The mask initialisation performed by `Window_init`: the input mask and
then the visibility mask are both set to the empty rectangle array. -/
def Window_init_masks (s : ShapeState) : ShapeState :=
  set_visibility_mask (set_input_mask s []) []

/-- A Python value as far as the rectangle parsing in
`Window_set_visibility_mask` can observe it. -/
inductive PyVal
  | int (n : Int)
  | tuple (items : List PyVal)
  | otherObject

/-- CPython conversion for format `h` (C short): overflow checked,
fails outside the signed 16-bit range and on non-ints. -/
def parse_short (v : PyVal) : Option Int :=
  match v with
  | .int n => if -32768 ≤ n ∧ n < 32768 then some n else none
  | _ => none

/-- CPython conversion for format `H` (C unsigned short): no overflow
check, the integer is masked modulo 2^16 (negative values wrap). -/
def parse_ushort (v : PyVal) : Option Nat :=
  match v with
  | .int n => some (n % 65536).toNat
  | _ => none

/-- The per-rectangle parsing of `Window_set_visibility_mask`: the element
must be a tuple (else the first ValueError), and must parse with format
`hhHH` (else the second ValueError). -/
def parse_rectangle (v : PyVal) : Except String XRect :=
  match v with
  | .tuple items =>
      match items with
      | [vx, vy, vw, vh] =>
          match parse_short vx, parse_short vy, parse_ushort vw, parse_ushort vh with
          | some x, some y, some w, some h => .ok ⟨x, y, w, h⟩
          | _, _, _, _ =>
              .error "Expected a rectangle to be a tuple of (x: int, y: int, width: int, height: int)!"
      | _ =>
          .error "Expected a rectangle to be a tuple of (x: int, y: int, width: int, height: int)!"
  | _ => .error "Expected a list of a tuple of ints!"

/-- `Window_set_visibility_mask` (window.c): parses every list element into
a local `XRectangle` array (raising on the first malformed element, before
any server call), then issues one `set_visibility_mask` call with the full
array.  Returns the raised error (if any) and the resulting server-side
shape state. -/
def Window_set_visibility_mask (s : ShapeState) (area : List PyVal) :
    Option String × ShapeState :=
  match area.mapM parse_rectangle with
  | .error e => (some e, s)
  | .ok rects => (none, set_visibility_mask s rects)

/-- The state of a `WindowObject` (window.c): the display reference
(`display_pyobject`, modelled by whether it is non-NULL), the parent and
own window ids, and the stored unsigned dimensions. -/
structure WindowObject where
  hasDisplay : Bool
  parent : Nat
  window : Nat
  width : Nat
  height : Nat
deriving DecidableEq

/-- Event masks used by window.c. -/
inductive EventMask
  | noEventMask
  | structureNotifyMask
deriving DecidableEq

/-- Calls issued to the X server (or to the Python-level draw method),
recorded in order. -/
inductive XCall
  | setSubscribedEvents (window : Nat) (mask : EventMask)
  | destroyWindow (window : Nat)
  | resizeWindow (window : Nat) (width height : Nat)
  | flush
  | draw
deriving DecidableEq

/-- An X event as far as `Window_process_event` inspects it: the type tag,
the `xany.window` field, and the type-specific payload it reads. -/
inductive XEvent
  | expose (window : Nat) (count : Nat)
  | configureNotify (window : Nat) (width height : Int)
  | otherEvent (window : Nat)
deriving DecidableEq

/-- The peek filter of `Window_process_event`: an Expose event whose
`xany.window` is the own window id, or a ConfigureNotify event whose
`xany.window` is the parent id. -/
def event_targets_window (self : WindowObject) (e : XEvent) : Bool :=
  match e with
  | .expose w _ => w == self.window
  | .configureNotify w _ _ => w == self.parent
  | .otherEvent _ => false

/-- The switch of `Window_process_event` on a consumed event.  For
ConfigureNotify, `delta_width` and `delta_height` are C unsigned ints:
the reported dimension minus the stored dimension, wrapping modulo 2^32. -/
def Window_dispatch_event (self : WindowObject) (e : XEvent) :
    WindowObject × List XCall :=
  match e with
  | .expose _ count =>
      if count = 0 then (self, [XCall.draw]) else (self, [])
  | .configureNotify _ w h =>
      let newWidth := u32 w
      let newHeight := u32 h
      let deltaWidth := usub32 newWidth self.width
      let deltaHeight := usub32 newHeight self.height
      let step :=
        if deltaWidth ≠ 0 ∨ deltaHeight ≠ 0 then
          ({ self with width := newWidth, height := newHeight },
            [XCall.resizeWindow self.window newWidth newHeight])
        else (self, ([] : List XCall))
      if deltaWidth > 0 ∨ deltaHeight > 0 then
        (step.1, step.2 ++ [XCall.draw])
      else
        (step.1, step.2 ++ [XCall.flush])
  | .otherEvent _ => (self, [])

/-- `Window_process_event` (window.c) over an explicit event queue:
returns False if the queue is empty (`XPending`); otherwise peeks the
head event and returns False leaving the queue untouched unless the
event passes `event_targets_window`; otherwise consumes it
(`XNextEvent`), dispatches, and returns True.  Result components:
return value, new window state, remaining queue, server calls issued. -/
def Window_process_event (self : WindowObject) (queue : List XEvent) :
    Bool × WindowObject × List XEvent × List XCall :=
  match queue with
  | [] => (false, self, [], [])
  | e :: rest =>
      if event_targets_window self e then
        ((true, (Window_dispatch_event self e).1, rest,
          (Window_dispatch_event self e).2) : Bool × WindowObject × List XEvent × List XCall)
      else
        (false, self, e :: rest, [])

/-- `Window_finalise` (window.c): if a server window exists, unsubscribes
the parent (NoEventMask), destroys the window and flushes; in every case
clears the display reference (`Py_CLEAR`) and zeroes the window id. -/
def Window_finalise (self : WindowObject) : WindowObject × List XCall :=
  let calls :=
    if self.window ≠ 0 then
      [XCall.setSubscribedEvents self.parent .noEventMask,
        XCall.destroyWindow self.window,
        XCall.flush]
    else ([] : List XCall)
  ({ self with hasDisplay := false, window := 0 }, calls)

/-- Result of one `XGetWindowProperty` call as `has_property` (display.c)
inspects it: whether it returned `Success`, the returned actual type
(an Atom, 0 meaning `None`) and the returned actual format. -/
structure PropReply where
  status : Bool
  actualType : Nat
  actualFormat : Int
deriving DecidableEq

/-- `has_property` (display.c): the call succeeded and the reply is not
the (type = None, format = 0) shape that denotes an absent property. -/
def has_property (r : PropReply) : Bool :=
  r.status && !(r.actualType == 0 && r.actualFormat == 0)

/-- One child window as enumerated by `XQueryTree`, with the four
property replies the filter of `Display_get_child_window_ids` queries. -/
structure ChildWindow where
  id : Nat
  wmClass : PropReply
  wmName : PropReply
  wmLocaleName : PropReply
  wmNormalHints : PropReply
deriving DecidableEq

/-- The helper-window test of `Display_get_child_window_ids`: the child
has none of the four well-known properties. -/
def is_helper_window (c : ChildWindow) : Bool :=
  !has_property c.wmClass && !has_property c.wmName &&
    !has_property c.wmLocaleName && !has_property c.wmNormalHints

/-- The enumeration loop of `Display_get_child_window_ids`: appends the
id of every child that is not a helper window, in enumeration order. -/
def collect_child_ids : List ChildWindow → List Nat
  | [] => []
  | c :: cs =>
      if is_helper_window c then collect_child_ids cs
      else c.id :: collect_child_ids cs

/-- `Display_get_child_window_ids` (display.c): the argument is the
`XQueryTree` outcome, `none` when the query itself failed (then an
OSError is raised), otherwise the enumerated children. -/
def Display_get_child_window_ids (tree : Option (List ChildWindow)) :
    Except String (List Nat) :=
  match tree with
  | none => .error "failed to query child windows"
  | some children => .ok (collect_child_ids children)

/-- The client-id record types distinguished by `XResGetClientIdType`. -/
inductive XResClientIdType
  | pidType
  | otherType
deriving DecidableEq

/-- One `XResClientIdValue` as `Display_get_window_pid` inspects it. -/
structure XResClientIdValue where
  type : XResClientIdType
  pid : Int
deriving DecidableEq

/-- The sentinel `INVALID_PID` of display.c. -/
def INVALID_PID : Int := -1

/-- The record loop of `Display_get_window_pid`: every pid-typed record
overwrites `window_creator_pid`. -/
def pid_loop (acc : Int) : List XResClientIdValue → Int
  | [] => acc
  | v :: vs => pid_loop (if v.type = .pidType then v.pid else acc) vs

/-- `Display_get_window_pid` (display.c): the argument is the
`XResQueryClientIds` outcome, `none` when the call did not return
`Success` (the function then returns Python None), otherwise the
returned records.  A non-error Python return is `Except.ok`; the code
returns the last pid-typed record seen, or None when
`window_creator_pid` still equals `INVALID_PID`. -/
def Display_get_window_pid (queryResult : Option (List XResClientIdValue)) :
    Except String (Option Int) :=
  match queryResult with
  | none => .ok none
  | some clientIds =>
      let window_creator_pid := pid_loop INVALID_PID clientIds
      if window_creator_pid ≠ INVALID_PID then .ok (some window_creator_pid)
      else .ok none

/-- What the X server offers to `Display_init`: whether each of the two
`XOpenDisplay` calls succeeds, whether the XRes and XShm extensions are
present, and the screen constants captured on success. -/
structure XServerEnv where
  canOpenEvent : Bool
  canOpenInfo : Bool
  hasXRes : Bool
  hasXShm : Bool
  screenWidth : Int
  screenHeight : Int
  bitmapPad : Int
  bitmapUnit : Int
deriving DecidableEq

/-- The state of a `DisplayObject` (display.h): the two connections
(modelled by whether each is open) and the cached screen constants. -/
structure DisplayObject where
  event_display : Bool
  info_display : Bool
  screen_width : Int
  screen_height : Int
  bitmap_pad : Int
  bitmap_unit : Int
deriving DecidableEq

/-- A freshly allocated `DisplayObject` (tp_new zero-fills). -/
def DisplayObject.fresh : DisplayObject :=
  { event_display := false, info_display := false,
    screen_width := 0, screen_height := 0, bitmap_pad := 0, bitmap_unit := 0 }

/-- `Display_init` (display.c): reopens both connections, raises OSError
if either open failed, then raises OSError if XRes or XShm is missing,
and otherwise caches the screen constants.  Returns the raised error
message (if any) together with the object state when init returns. -/
def Display_init (env : XServerEnv) (self : DisplayObject) :
    Option String × DisplayObject :=
  let self := { self with event_display := env.canOpenEvent,
                          info_display := env.canOpenInfo }
  if self.event_display = false ∨ self.info_display = false then
    (some "could not open a connection to the X server", self)
  else if env.hasXRes = false then
    (some "the extension XRes is required", self)
  else if env.hasXShm = false then
    (some "the extension Xext is required", self)
  else
    (none, { self with screen_width := env.screenWidth,
                       screen_height := env.screenHeight,
                       bitmap_pad := env.bitmapPad,
                       bitmap_unit := env.bitmapUnit })

/-- `Display_dealloc` (display.c): closes whichever connections are open. -/
def Display_dealloc (self : DisplayObject) : DisplayObject :=
  { self with event_display := false, info_display := false }

/-- Constructing a Display through the CPython object protocol: tp_new
allocates a zero-filled object, tp_init runs `Display_init`; if init
fails, the constructor drops its reference and tp_dealloc
(`Display_dealloc`) runs before the exception reaches the caller.
Returns the constructor outcome and the final object state. -/
def Display_new_session (env : XServerEnv) :
    Except String DisplayObject × DisplayObject :=
  match Display_init env DisplayObject.fresh with
  | (none, s) => (.ok s, s)
  | (some e, s) => (.error e, Display_dealloc s)

/-- `Display_get_screen_width` (display.c). -/
def Display_get_screen_width (self : DisplayObject) : Int := self.screen_width

/-- `Display_get_screen_height` (display.c). -/
def Display_get_screen_height (self : DisplayObject) : Int := self.screen_height

/-- `Display_get_bitmap_format_scanline_pad` (display.c). -/
def Display_get_bitmap_format_scanline_pad (self : DisplayObject) : Int :=
  self.bitmap_pad

/-- `Display_get_bitmap_format_scanline_unit` (display.c). -/
def Display_get_bitmap_format_scanline_unit (self : DisplayObject) : Int :=
  self.bitmap_unit

/-- The `Display_properties` getter table (display.c lines 219 to 231),
entry by entry: note the "screen_height" entry is wired to
`Display_get_screen_width` in the source. -/
def Display_properties : List (String × (DisplayObject → Int)) :=
  [("bitmap_format_scanline_pad", Display_get_bitmap_format_scanline_pad),
   ("bitmap_format_scanline_unit", Display_get_bitmap_format_scanline_unit),
   ("screen_width", Display_get_screen_width),
   ("screen_height", Display_get_screen_width)]

/-- Reading an attribute through the getter table. -/
def get_display_property (name : String) (self : DisplayObject) : Option Int :=
  (Display_properties.lookup name).map (fun g => g self)

/-- Appending event lists composes the pid accumulation loop. -/
theorem pid_loop_append (xs ys : List XResClientIdValue) :
    ∀ acc, pid_loop acc (xs ++ ys) = pid_loop (pid_loop acc xs) ys := by
  induction xs with
  | nil => intro acc; rfl
  | cons x xs ih => intro acc; simp [pid_loop, ih]

/-- The pid accumulation loop leaves the accumulator untouched on a list
without pid-typed records. -/
theorem pid_loop_no_pid (xs : List XResClientIdValue) :
    (∀ v ∈ xs, v.type ≠ XResClientIdType.pidType) → ∀ acc, pid_loop acc xs = acc := by
  induction xs with
  | nil => intro _ acc; rfl
  | cons x xs ih =>
      intro h acc
      have hx : x.type ≠ XResClientIdType.pidType := h x (List.mem_cons_self x xs)
      simp [pid_loop, hx]
      exact ih (fun v hv => h v (List.mem_cons_of_mem x hv)) _

/-- The child enumeration loop is filtering by the helper-window test
followed by projecting the ids, preserving order. -/
theorem collect_child_ids_eq (cs : List ChildWindow) :
    collect_child_ids cs = (cs.filter fun c => !is_helper_window c).map ChildWindow.id := by
  induction cs with
  | nil => rfl
  | cons c cs ih =>
      cases h : is_helper_window c <;>
        simp [collect_child_ids, List.filter_cons, h, ih]

/-- Claim C1: the spec says a ConfigureNotify that only shrinks the window
(W2 <= W1, H2 <= H1, sizes not equal) resizes without triggering a redraw.
In the code `delta_width` and `delta_height` are C unsigned ints, so
`delta_width > 0` holds for every nonzero delta, wrap-around included: at
stored size (100, 100) and a reported size of (50, 100) the consumed event
issues a resize followed by a draw call, not the flush-without-redraw the
spec describes. -/
theorem C1_shrink_triggers_draw :
    Window_process_event ⟨true, 1, 2, 100, 100⟩ [XEvent.configureNotify 1 50 100] =
      (true, ⟨true, 1, 2, 50, 100⟩, ([] : List XEvent),
        [XCall.resizeWindow 2 50 100, XCall.draw]) := by decide

/-- Claim C2 (counterexample): after `setVisibilityMask` with one rectangle
the bounding (visibility) mask holds that rectangle while the input mask is
still empty, so the two masks are not kept identical. -/
theorem C2_counterexample :
    (Window_set_visibility_mask (Window_init_masks ⟨[], []⟩)
        [PyVal.tuple [PyVal.int 0, PyVal.int 0, PyVal.int 1, PyVal.int 1]]).2.bounding =
      [⟨0, 0, 1, 1⟩] ∧
    (Window_set_visibility_mask (Window_init_masks ⟨[], []⟩)
        [PyVal.tuple [PyVal.int 0, PyVal.int 0, PyVal.int 1, PyVal.int 1]]).2.input =
      [] ∧
    (Window_set_visibility_mask (Window_init_masks ⟨[], []⟩)
        [PyVal.tuple [PyVal.int 0, PyVal.int 0, PyVal.int 1, PyVal.int 1]]).2.input ≠
      (Window_set_visibility_mask (Window_init_masks ⟨[], []⟩)
        [PyVal.tuple [PyVal.int 0, PyVal.int 0, PyVal.int 1, PyVal.int 1]]).2.bounding := by
  exact ⟨rfl, rfl, by decide⟩

/-- Claim C2 (amended): binding sets both the input mask and the visibility
mask to the empty rectangle set, and `setVisibilityMask` replaces only the
visibility (bounding) mask, leaving the input mask untouched — the overlay
therefore stays click-through everywhere while its visible region varies. -/
theorem C2_input_mask_unchanged (s : ShapeState) (area : List PyVal) :
    (Window_init_masks s).input = [] ∧ (Window_init_masks s).bounding = [] ∧
    (Window_set_visibility_mask s area).2.input = s.input := by
  refine ⟨rfl, rfl, ?_⟩
  unfold Window_set_visibility_mask
  cases h : area.mapM parse_rectangle <;>
    simp [set_visibility_mask, set_xshape_mask]

/-- Claim C3 (counterexample): when the `XResQueryClientIds` call itself
fails (outcome `none`), `Display_get_window_pid` returns Python None — a
non-error return — rather than raising a QueryError. -/
theorem C3_counterexample :
    Display_get_window_pid none = Except.ok none := rfl

/-- Claim C3 (amended): `Display_get_window_pid` never raises once its
argument is parsed: it returns None both when the extension call fails and
when the returned records hold no pid-typed entry, and otherwise a pid. -/
theorem C3_never_raises (q : Option (List XResClientIdValue)) :
    (∃ v, Display_get_window_pid q = Except.ok v) ∧
    (q = none → Display_get_window_pid q = Except.ok none) ∧
    (∀ ids, q = some ids → (∀ v ∈ ids, v.type ≠ XResClientIdType.pidType) →
      Display_get_window_pid q = Except.ok none) := by
  refine ⟨?_, ?_, ?_⟩
  · cases q with
    | none => exact ⟨none, rfl⟩
    | some ids =>
        unfold Display_get_window_pid
        by_cases h : pid_loop INVALID_PID ids = INVALID_PID <;> simp [h]
  · intro h; subst h; rfl
  · intro ids h hall; subst h
    unfold Display_get_window_pid
    simp [pid_loop_no_pid ids hall INVALID_PID]

/-- Claim C3 witness: a record list with no pid-typed entry resolves to
None without an error. -/
theorem C3_witness :
    Display_get_window_pid (some [⟨XResClientIdType.otherType, 7⟩]) =
      Except.ok none :=
  (C3_never_raises (some [⟨XResClientIdType.otherType, 7⟩])).2.2
    [⟨XResClientIdType.otherType, 7⟩] rfl (by decide)

/-- Claim C4: `Window_process_event` returns False on an empty queue and
on a head event that is neither an Expose for the own window id nor a
ConfigureNotify for the parent id — leaving the queue unchanged in that
case, since the event was only peeked — and returns True, consuming
exactly the head event, whenever the head event passes the filter. -/
theorem C4_process_event (self : WindowObject) (q : List XEvent) :
    (q = [] → Window_process_event self q = (false, self, q, [])) ∧
    (∀ e rest, q = e :: rest → event_targets_window self e = false →
      Window_process_event self q = (false, self, q, [])) ∧
    (∀ e rest, q = e :: rest → event_targets_window self e = true →
      (Window_process_event self q).1 = true ∧
      (Window_process_event self q).2.2.1 = rest) := by
  refine ⟨?_, ?_, ?_⟩
  · intro h; subst h; rfl
  · intro e rest h hmatch; subst h
    simp [Window_process_event, hmatch]
  · intro e rest h hmatch; subst h
    simp [Window_process_event, hmatch]

/-- Claim C4 witness: a foreign event is left queued with a False return,
and a matching exposure event is consumed with a True return. -/
theorem C4_witness :
    Window_process_event ⟨true, 1, 2, 100, 100⟩ [XEvent.otherEvent 5] =
      (false, ⟨true, 1, 2, 100, 100⟩, [XEvent.otherEvent 5], []) ∧
    (Window_process_event ⟨true, 1, 2, 100, 100⟩ [XEvent.expose 2 0]).1 = true :=
  ⟨(C4_process_event ⟨true, 1, 2, 100, 100⟩ [XEvent.otherEvent 5]).2.1
      (XEvent.otherEvent 5) [] rfl (by decide),
    ((C4_process_event ⟨true, 1, 2, 100, 100⟩ [XEvent.expose 2 0]).2.2
      (XEvent.expose 2 0) [] rfl (by decide)).1⟩

/-- Claim C5: the getter table of display.c wires the "screen_height"
attribute to `Display_get_screen_width`, so on a display whose stored
geometry is 1920 by 1080 the screen_height accessor returns 1920, the
stored width, not the stored height — contradicting both the claim and
the docstring of the property itself. -/
theorem C5_screen_height_returns_width :
    get_display_property "screen_height" ⟨true, true, 1920, 1080, 32, 32⟩ =
      some 1920 ∧
    Display_get_screen_height ⟨true, true, 1920, 1080, 32, 32⟩ = 1080 ∧
    get_display_property "screen_height" ⟨true, true, 1920, 1080, 32, 32⟩ ≠
      some (Display_get_screen_height ⟨true, true, 1920, 1080, 32, 32⟩) := by
  exact ⟨rfl, rfl, by decide⟩

/-- Claim C6: `Display_get_child_window_ids` fails only when the tree
query itself failed; otherwise it returns, in enumeration order, exactly
the ids of the children that carry at least one of the four well-known
properties; a window with no children yields the empty list. -/
theorem C6_list_children (tree : Option (List ChildWindow)) :
    (tree = none →
      Display_get_child_window_ids tree = .error "failed to query child windows") ∧
    (∀ cs, tree = some cs →
      Display_get_child_window_ids tree =
        .ok ((cs.filter fun c => !is_helper_window c).map ChildWindow.id)) ∧
    (∀ c : ChildWindow,
      (!is_helper_window c) =
        (has_property c.wmClass || has_property c.wmName ||
          has_property c.wmLocaleName || has_property c.wmNormalHints)) ∧
    Display_get_child_window_ids (some []) = .ok [] := by
  refine ⟨?_, ?_, ?_, rfl⟩
  · intro h; subst h; rfl
  · intro cs h; subst h
    simp [Display_get_child_window_ids, collect_child_ids_eq]
  · intro c
    unfold is_helper_window
    cases h1 : has_property c.wmClass <;> cases h2 : has_property c.wmName <;>
      cases h3 : has_property c.wmLocaleName <;>
        cases h4 : has_property c.wmNormalHints <;> rfl

/-- Claim C6 witness: of three fabricated children — one carrying a window
name, one carrying nothing, one carrying size hints — exactly the first
and third survive, in order. -/
theorem C6_witness :
    Display_get_child_window_ids (some
        [⟨10, ⟨true, 0, 0⟩, ⟨true, 31, 8⟩, ⟨true, 0, 0⟩, ⟨true, 0, 0⟩⟩,
          ⟨11, ⟨true, 0, 0⟩, ⟨true, 0, 0⟩, ⟨true, 0, 0⟩, ⟨true, 0, 0⟩⟩,
          ⟨12, ⟨true, 0, 0⟩, ⟨true, 0, 0⟩, ⟨true, 0, 0⟩, ⟨true, 40, 32⟩⟩]) =
      .ok [10, 12] := by
  have h := (C6_list_children (some
      [⟨10, ⟨true, 0, 0⟩, ⟨true, 31, 8⟩, ⟨true, 0, 0⟩, ⟨true, 0, 0⟩⟩,
        ⟨11, ⟨true, 0, 0⟩, ⟨true, 0, 0⟩, ⟨true, 0, 0⟩, ⟨true, 0, 0⟩⟩,
        ⟨12, ⟨true, 0, 0⟩, ⟨true, 0, 0⟩, ⟨true, 0, 0⟩, ⟨true, 40, 32⟩⟩])).2.1
      [⟨10, ⟨true, 0, 0⟩, ⟨true, 31, 8⟩, ⟨true, 0, 0⟩, ⟨true, 0, 0⟩⟩,
        ⟨11, ⟨true, 0, 0⟩, ⟨true, 0, 0⟩, ⟨true, 0, 0⟩, ⟨true, 0, 0⟩⟩,
        ⟨12, ⟨true, 0, 0⟩, ⟨true, 0, 0⟩, ⟨true, 0, 0⟩, ⟨true, 40, 32⟩⟩] rfl
  rw [h]; rfl

/-- Claim C7: when both connections open but a required extension (XRes or
XShm) is absent, constructing a Display raises the corresponding missing
capability OSError and, once the failed constructor has torn the object
down, both connections are closed; no usable object is returned. -/
theorem C7_missing_extension_closes_connections (env : XServerEnv)
    (hev : env.canOpenEvent = true) (hin : env.canOpenInfo = true)
    (hmiss : env.hasXRes = false ∨ env.hasXShm = false) :
    (∃ msg, (Display_new_session env).1 = Except.error msg ∧
      (msg = "the extension XRes is required" ∨
        msg = "the extension Xext is required")) ∧
    (Display_new_session env).2.event_display = false ∧
    (Display_new_session env).2.info_display = false := by
  rcases hmiss with h | h
  · refine ⟨⟨"the extension XRes is required", ?_, Or.inl rfl⟩, ?_, ?_⟩ <;>
      simp [Display_new_session, Display_init, Display_dealloc, hev, hin, h]
  · cases hres : env.hasXRes
    · refine ⟨⟨"the extension XRes is required", ?_, Or.inl rfl⟩, ?_, ?_⟩ <;>
        simp [Display_new_session, Display_init, Display_dealloc, hev, hin, hres]
    · refine ⟨⟨"the extension Xext is required", ?_, Or.inr rfl⟩, ?_, ?_⟩ <;>
        simp [Display_new_session, Display_init, Display_dealloc, hev, hin, h, hres]

/-- Claim C7 witness: with XRes absent, both connections of the final
object state are closed. -/
theorem C7_witness :
    (Display_new_session ⟨true, true, false, true, 0, 0, 0, 0⟩).2.event_display =
      false ∧
    (Display_new_session ⟨true, true, false, true, 0, 0, 0, 0⟩).2.info_display =
      false :=
  ⟨(C7_missing_extension_closes_connections ⟨true, true, false, true, 0, 0, 0, 0⟩
      rfl rfl (Or.inl rfl)).2.1,
    (C7_missing_extension_closes_connections ⟨true, true, false, true, 0, 0, 0, 0⟩
      rfl rfl (Or.inl rfl)).2.2⟩

/-- Claim C8 (counterexample): a rectangle with negative extent is not
rejected — the width is parsed with CPython format H, which masks the
integer modulo 2^16 without an overflow check — so (0, 0, -1, 5) raises
no validation error and reaches the server as (0, 0, 65535, 5). -/
theorem C8_counterexample :
    Window_set_visibility_mask ⟨[], []⟩
        [PyVal.tuple [PyVal.int 0, PyVal.int 0, PyVal.int (-1), PyVal.int 5]] =
      (none, ⟨[⟨0, 0, 65535, 5⟩], []⟩) := by rfl

/-- Claim C8 (amended): every list element is parsed — it must be a
4-tuple of ints whose x and y fit a signed 16-bit range, while width and
height are masked modulo 2^16 with negative extents wrapped rather than
rejected — before any server call; if any element fails to parse, a
ValueError is raised and the mask is left unchanged, and if all parse the
full rectangle set is applied in one server call. -/
theorem C8_parse_before_server_call (s : ShapeState) (area : List PyVal) :
    (∀ e, area.mapM parse_rectangle = .error e →
      Window_set_visibility_mask s area = (some e, s)) ∧
    (∀ rects, area.mapM parse_rectangle = .ok rects →
      Window_set_visibility_mask s area =
        (none, { s with bounding := rects })) := by
  constructor
  · intro e h
    unfold Window_set_visibility_mask
    rw [h]
  · intro rects h
    unfold Window_set_visibility_mask
    rw [h]
    rfl

/-- Claim C8 witness: a non-tuple element raises the ValueError and the
server-side mask is returned unchanged. -/
theorem C8_witness :
    Window_set_visibility_mask ⟨[⟨1, 1, 2, 2⟩], []⟩ [PyVal.otherObject] =
      (some "Expected a list of a tuple of ints!", ⟨[⟨1, 1, 2, 2⟩], []⟩) :=
  (C8_parse_before_server_call ⟨[⟨1, 1, 2, 2⟩], []⟩ [PyVal.otherObject]).1
    "Expected a list of a tuple of ints!" (by rfl)

/-- Claim C9: finalising a bound window issues exactly the parent
unsubscription, the window destruction and a flush, and leaves the display
reference cleared and the window id zero; finalising again issues no server
call and leaves the state exactly as the first call left it. -/
theorem C9_finalise_idempotent (self : WindowObject) :
    (self.window ≠ 0 →
      (Window_finalise self).2 =
        [XCall.setSubscribedEvents self.parent EventMask.noEventMask,
          XCall.destroyWindow self.window, XCall.flush]) ∧
    (Window_finalise self).1.window = 0 ∧
    (Window_finalise self).1.hasDisplay = false ∧
    (Window_finalise (Window_finalise self).1).2 = [] ∧
    (Window_finalise (Window_finalise self).1).1 = (Window_finalise self).1 := by
  refine ⟨?_, rfl, rfl, ?_, ?_⟩
  · intro h; simp [Window_finalise, h]
  · simp [Window_finalise]
  · simp [Window_finalise]

/-- Claim C9 witness: the first finalise call on a bound window issues the
three server calls. -/
theorem C9_witness :
    (Window_finalise ⟨true, 7, 9, 50, 60⟩).2 =
      [XCall.setSubscribedEvents 7 EventMask.noEventMask,
        XCall.destroyWindow 9, XCall.flush] :=
  (C9_finalise_idempotent ⟨true, 7, 9, 50, 60⟩).1 (by decide)

/-- Claim C10: when the returned record list holds several pid-typed
records, the loop overwrites earlier matches, so the pid of the last
pid-typed record is returned. -/
theorem C10_last_pid_record_wins (pre post : List XResClientIdValue)
    (v : XResClientIdValue) (hty : v.type = XResClientIdType.pidType)
    (hpost : ∀ u ∈ post, u.type ≠ XResClientIdType.pidType)
    (hpid : v.pid ≠ INVALID_PID) :
    Display_get_window_pid (some (pre ++ v :: post)) =
      Except.ok (some v.pid) := by
  have h1 : pid_loop INVALID_PID (pre ++ v :: post) = v.pid := by
    rw [pid_loop_append]
    simp [pid_loop, hty, pid_loop_no_pid post hpost]
  unfold Display_get_window_pid
  simp [h1, hpid]

/-- Claim C10 witness: with pid records 5 then 9 followed by a non-pid
record, the resolved pid is 9, the later record. -/
theorem C10_witness :
    Display_get_window_pid (some
        [⟨XResClientIdType.pidType, 5⟩, ⟨XResClientIdType.pidType, 9⟩,
          ⟨XResClientIdType.otherType, 3⟩]) = Except.ok (some 9) :=
  C10_last_pid_record_wins [⟨XResClientIdType.pidType, 5⟩]
    [⟨XResClientIdType.otherType, 3⟩] ⟨XResClientIdType.pidType, 9⟩ rfl
    (by decide) (by decide)

end Ueberzug
